import Mathlib

/-!
Verification of the Flappy-Bird core simulation found in `src/src/app/page.js`
(component `Page`) and its commented twin `src/unnamed/part_001` (component
`FlappyGame`).  Numbers are modelled as rationals; the browser's
`Math.random()` draw is passed in explicitly as a rational `r` with
`0 ≤ r < 1`.  React `setState` batching within one `setInterval` callback is
modelled by a single `tick` function that performs the bird update and the
pipe update of the same callback; the collision/scoring `useEffect` is the
separate operation `checkCollisions`.  The `localStorage` cell holding the
high score is modelled by the `storedHigh` field of the state.
-/

namespace Flappy

/-- Bird width constant from page.js (`BIRD_WIDTH = 40`). -/
def BIRD_WIDTH : ℚ := 40

/-- Bird height constant from page.js (`BIRD_HEIGHT = 30`). -/
def BIRD_HEIGHT : ℚ := 30

/-- Pipe width constant from page.js (`PIPE_WIDTH = 60`). -/
def PIPE_WIDTH : ℚ := 60

/-- Gap between top and bottom pipe from page.js (`PIPE_GAP = 200`). -/
def PIPE_GAP : ℚ := 200

/-- Gravity constant from page.js (`GRAVITY = 0.4`). -/
def GRAVITY : ℚ := 2/5

/-- Jump impulse from page.js (`JUMP_FORCE = -7`). -/
def JUMP_FORCE : ℚ := -7

/-- Pipe horizontal speed from page.js (`PIPE_SPEED = 2`). -/
def PIPE_SPEED : ℚ := 2

/-- The bird state `{x, y, velocity}` of page.js. -/
structure Bird where
  x : ℚ
  y : ℚ
  velocity : ℚ
  deriving DecidableEq, Repr

/-- One pipe `{x, topHeight, bottomHeight, passed}` of page.js. -/
structure Pipe where
  x : ℚ
  topHeight : ℚ
  bottomHeight : ℚ
  passed : Bool
  deriving DecidableEq, Repr

/-- The component state of page.js: bird, pipes array, the two game flags,
score and high score, plus the modelled `localStorage` cell (`storedHigh`,
`none` while nothing has been written). -/
structure GameState where
  bird : Bird
  pipes : List Pipe
  gameStarted : Bool
  gameOver : Bool
  score : Nat
  highScore : Int
  storedHigh : Option Int
  deriving DecidableEq, Repr

/-- Pipe construction shared by both spawn sites of page.js:
`topH = Math.random() * (gameHeight - PIPE_GAP - 100) + 50`, placed at
`x = gameWidth` with `bottomHeight = gameHeight - topH - PIPE_GAP` and
`passed: false`.  `r` is the `Math.random()` draw. -/
def mkPipe (gw gh r : ℚ) : Pipe :=
  let topH := r * (gh - PIPE_GAP - 100) + 50
  { x := gw, topHeight := topH, bottomHeight := gh - topH - PIPE_GAP,
    passed := false }

/-- The `jump` callback of page.js: the first jump starts the game and spawns
the initial pipe; a jump while over is a no-op; otherwise the bird's velocity
is set to `JUMP_FORCE`. -/
def jump (gw gh r : ℚ) (s : GameState) : GameState :=
  if !s.gameStarted then
    { s with gameStarted := true, pipes := [mkPipe gw gh r] }
  else if s.gameOver then s
  else { s with bird := { s.bird with velocity := JUMP_FORCE } }

/-- The `resetGame` function of page.js: bird re-centred, pipes cleared,
both flags cleared, score reset; high score and storage untouched. -/
def resetGame (gh : ℚ) (s : GameState) : GameState :=
  { s with bird := { x := 100, y := gh / 2, velocity := 0 },
           pipes := [], gameStarted := false, gameOver := false, score := 0 }

/-- The bird half of the `gameLoop` interval callback of page.js: move by
velocity, add gravity, and on hitting floor or ceiling return the previous
bird unchanged while signalling game over (the Bool). -/
def birdStep (gh : ℚ) (b : Bird) : Bird × Bool :=
  let newY := b.y + b.velocity
  let newVelocity := b.velocity + GRAVITY
  if newY ≤ 0 ∨ newY ≥ gh - BIRD_HEIGHT then (b, true)
  else ({ b with y := newY, velocity := newVelocity }, false)

/-- The per-pipe shift of page.js: `x: pipe.x - PIPE_SPEED`. -/
def movePipe (p : Pipe) : Pipe := { p with x := p.x - PIPE_SPEED }

/-- The pipe half of the `gameLoop` interval callback of page.js: shift all
pipes left, drop pipes with `x ≤ -PIPE_WIDTH`, and append a fresh pipe at
`x = gameWidth` when the array is empty or its last pipe has
`x < gameWidth - 250`. -/
def pipeStep (gw gh r : ℚ) (pipes : List Pipe) : List Pipe :=
  let kept := (pipes.map movePipe).filter (fun p => decide (p.x > -PIPE_WIDTH))
  match kept.getLast? with
  | none => kept ++ [mkPipe gw gh r]
  | some last =>
      if last.x < gw - 250 then kept ++ [mkPipe gw gh r] else kept

/-- One firing of the `gameLoop` interval of page.js.  The interval only
exists while `gameStarted && !gameOver` (the effect guard), hence the guard
here.  Both `setBird` and `setPipes` updaters run in the same callback, so
the pipes advance even on the tick in which the bird goes out of bounds. -/
def tick (gw gh r : ℚ) (s : GameState) : GameState :=
  if !s.gameStarted || s.gameOver then s
  else
    let bo := birdStep gh s.bird
    { s with bird := bo.1,
             gameOver := if bo.2 then true else s.gameOver,
             pipes := pipeStep gw gh r s.pipes }

/-- The collision predicate of page.js `checkCollisions`:
`bird.x + BIRD_WIDTH > pipe.x && bird.x < pipe.x + PIPE_WIDTH &&
(bird.y < pipe.topHeight || bird.y + BIRD_HEIGHT > gameHeight - pipe.bottomHeight)`. -/
def birdCollides (gh : ℚ) (b : Bird) (p : Pipe) : Bool :=
  decide (b.x + BIRD_WIDTH > p.x) && decide (b.x < p.x + PIPE_WIDTH) &&
  (decide (b.y < p.topHeight) || decide (b.y + BIRD_HEIGHT > gh - p.bottomHeight))

/-- The `for` loop of page.js `checkCollisions`: walk the pipes in order;
on the first collision stop (`break`) reporting `true`; otherwise mark
not-yet-passed pipes with `bird.x > pipe.x + PIPE_WIDTH` as passed and count
them.  Returns (collided, processed pipe list, newly passed count). -/
def scanPipes (gh : ℚ) (b : Bird) : List Pipe → Bool × List Pipe × Nat
  | [] => (false, [], 0)
  | p :: rest =>
      if birdCollides gh b p then (true, p :: rest, 0)
      else
        let hit := !p.passed && decide (b.x > p.x + PIPE_WIDTH)
        let p' := if hit then { p with passed := true } else p
        let out := scanPipes gh b rest
        (out.1, p' :: out.2.1, (if hit then 1 else 0) + out.2.2)

/-- The collision/scoring `useEffect` body of page.js: no-op unless running;
on a collision only `gameOver` is set (the locally updated pipe copy and the
score are discarded); otherwise, when pipes were newly passed, commit the
marked pipes, add the count to the score, and on a new maximum update the
high score and write it through to `localStorage`. -/
def checkCollisions (gh : ℚ) (s : GameState) : GameState :=
  if !s.gameStarted || s.gameOver then s
  else
    let out := scanPipes gh s.bird s.pipes
    if out.1 then { s with gameOver := true }
    else if out.2.2 > 0 then
      let newScore := s.score + out.2.2
      if (newScore : Int) > s.highScore then
        { s with pipes := out.2.1, score := newScore,
                 highScore := (newScore : Int),
                 storedHigh := some ((newScore : Int)) }
      else { s with pipes := out.2.1, score := newScore }
    else s

/-- Number of pipes currently marked passed in a pipe list. -/
def countPassed (ps : List Pipe) : Nat := (ps.filter (fun p => p.passed)).length

/-- JavaScript `parseInt` restricted to the inputs this program meets
(decimal numerals; the `0x` hexadecimal prefix form is not modelled): skip
leading whitespace, take an optional sign and then the longest run of
leading decimal digits; `none` models `NaN` (no digit found). -/
def jsParseInt (s : String) : Option Int :=
  match s.toList.dropWhile Char.isWhitespace with
  | [] => none
  | c :: rest =>
      let signedTail : Int × List Char :=
        if c = '-' then (-1, rest)
        else if c = '+' then (1, rest) else (1, c :: rest)
      let digs := signedTail.2.takeWhile Char.isDigit
      if digs.isEmpty then none
      else some (signedTail.1 *
        (digs.foldl (fun a d => a * 10 + (d.toNat - 48)) 0 : Nat))

/-- The mount effect of page.js reading the persisted high score:
`parseInt(localStorage.getItem("flappyHighScore") || "0")`, falling back to
0 when the result `Number.isNaN`.  `stored` is the `localStorage` content
(`none` when the key is absent); JavaScript `||` also replaces the empty
string (falsy) by `"0"`. -/
def loadHighScore (stored : Option String) : Int :=
  let raw := match stored with
    | none => "0"
    | some t => if t = "" then "0" else t
  match jsParseInt raw with
  | none => 0
  | some n => n

/-- The initial component state of page.js with the stable fallbacks
`bird = {x:100, y:300, velocity:0}`, no pipes, both flags false, score 0
and high score 0. -/
def idleState : GameState :=
  { bird := { x := 100, y := 300, velocity := 0 }, pipes := [],
    gameStarted := false, gameOver := false, score := 0, highScore := 0,
    storedHigh := none }

namespace FG

/-!
Model of the second source variant, the `FlappyGame` component of
`src/unnamed/part_001`.  Its state shape and constants are declared anew,
as that file declares its own copies; the record types `Bird`, `Pipe` and
`GameState` above describe both components' state shape, so they are
shared.
-/

/-- Bird width constant of part_001 (`BIRD_WIDTH = 40`). -/
def BIRD_WIDTH : ℚ := 40

/-- Bird height constant of part_001 (`BIRD_HEIGHT = 30`). -/
def BIRD_HEIGHT : ℚ := 30

/-- Pipe width constant of part_001 (`PIPE_WIDTH = 60`). -/
def PIPE_WIDTH : ℚ := 60

/-- Gap constant of part_001 (`PIPE_GAP = 200`). -/
def PIPE_GAP : ℚ := 200

/-- Gravity constant of part_001 (`GRAVITY = 0.4`). -/
def GRAVITY : ℚ := 2/5

/-- Jump impulse of part_001 (`JUMP_FORCE = -7`). -/
def JUMP_FORCE : ℚ := -7

/-- Pipe speed of part_001 (`PIPE_SPEED = 2`). -/
def PIPE_SPEED : ℚ := 2

/-- Pipe construction of part_001 (first-pipe spawn in `jump` and the
generator in the game loop). -/
def mkPipe (gw gh r : ℚ) : Pipe :=
  let topH := r * (gh - PIPE_GAP - 100) + 50
  { x := gw, topHeight := topH, bottomHeight := gh - topH - PIPE_GAP,
    passed := false }

/-- The `jump` callback of part_001. -/
def jump (gw gh r : ℚ) (s : GameState) : GameState :=
  if !s.gameStarted then
    { s with gameStarted := true, pipes := [mkPipe gw gh r] }
  else if s.gameOver then s
  else { s with bird := { s.bird with velocity := JUMP_FORCE } }

/-- The `resetGame` function of part_001. -/
def resetGame (gh : ℚ) (s : GameState) : GameState :=
  { s with bird := { x := 100, y := gh / 2, velocity := 0 },
           pipes := [], gameStarted := false, gameOver := false, score := 0 }

/-- The bird half of the game-loop interval of part_001. -/
def birdStep (gh : ℚ) (b : Bird) : Bird × Bool :=
  let newY := b.y + b.velocity
  let newVelocity := b.velocity + GRAVITY
  if newY ≤ 0 ∨ newY ≥ gh - BIRD_HEIGHT then (b, true)
  else ({ b with y := newY, velocity := newVelocity }, false)

/-- The per-pipe shift of part_001. -/
def movePipe (p : Pipe) : Pipe := { p with x := p.x - PIPE_SPEED }

/-- The pipe half of the game-loop interval of part_001. -/
def pipeStep (gw gh r : ℚ) (pipes : List Pipe) : List Pipe :=
  let kept := (pipes.map movePipe).filter (fun p => decide (p.x > -PIPE_WIDTH))
  match kept.getLast? with
  | none => kept ++ [mkPipe gw gh r]
  | some last =>
      if last.x < gw - 250 then kept ++ [mkPipe gw gh r] else kept

/-- One firing of the game-loop interval of part_001. -/
def tick (gw gh r : ℚ) (s : GameState) : GameState :=
  if !s.gameStarted || s.gameOver then s
  else
    let bo := birdStep gh s.bird
    { s with bird := bo.1,
             gameOver := if bo.2 then true else s.gameOver,
             pipes := pipeStep gw gh r s.pipes }

/-- The collision predicate of part_001's collision effect. -/
def birdCollides (gh : ℚ) (b : Bird) (p : Pipe) : Bool :=
  decide (b.x + BIRD_WIDTH > p.x) && decide (b.x < p.x + PIPE_WIDTH) &&
  (decide (b.y < p.topHeight) || decide (b.y + BIRD_HEIGHT > gh - p.bottomHeight))

/-- The pipe scan loop of part_001's collision effect. -/
def scanPipes (gh : ℚ) (b : Bird) : List Pipe → Bool × List Pipe × Nat
  | [] => (false, [], 0)
  | p :: rest =>
      if birdCollides gh b p then (true, p :: rest, 0)
      else
        let hit := !p.passed && decide (b.x > p.x + PIPE_WIDTH)
        let p' := if hit then { p with passed := true } else p
        let out := scanPipes gh b rest
        (out.1, p' :: out.2.1, (if hit then 1 else 0) + out.2.2)

/-- The collision/scoring effect body of part_001. -/
def checkCollisions (gh : ℚ) (s : GameState) : GameState :=
  if !s.gameStarted || s.gameOver then s
  else
    let out := scanPipes gh s.bird s.pipes
    if out.1 then { s with gameOver := true }
    else if out.2.2 > 0 then
      let newScore := s.score + out.2.2
      if (newScore : Int) > s.highScore then
        { s with pipes := out.2.1, score := newScore,
                 highScore := (newScore : Int),
                 storedHigh := some ((newScore : Int)) }
      else { s with pipes := out.2.1, score := newScore }
    else s

/-- The persisted-high-score load of part_001's mount effect
(`parseInt(localStorage.getItem("flappyHighScore") || "0")` with the
`Number.isNaN` fallback). -/
def loadHighScore (stored : Option String) : Int :=
  let raw := match stored with
    | none => "0"
    | some t => if t = "" then "0" else t
  match jsParseInt raw with
  | none => 0
  | some n => n

end FG

/-! Concrete states used by witnesses and counterexamples. -/

/-- A running state whose bird is about to leave the playfield (the spec's
out-of-bounds scenario: `y = 0`, `velocity = -1`). -/
def fallingState : GameState :=
  { bird := { x := 100, y := 0, velocity := -1 }, pipes := [],
    gameStarted := true, gameOver := false, score := 0, highScore := 0,
    storedHigh := none }

/-- A game-over state with some leftover pipes, for the freeze theorems. -/
def overState : GameState :=
  { bird := { x := 100, y := 250, velocity := 3 },
    pipes := [{ x := 400, topHeight := 150, bottomHeight := 250, passed := false }],
    gameStarted := true, gameOver := true, score := 2, highScore := 5,
    storedHigh := some 5 }

/-- A running state in which the bird overlaps a pipe's column above the
gap, for the collision theorems. -/
def collidingState : GameState :=
  { bird := { x := 100, y := 50, velocity := 0 },
    pipes := [{ x := 80, topHeight := 100, bottomHeight := 300, passed := false }],
    gameStarted := true, gameOver := false, score := 0, highScore := 0,
    storedHigh := none }

/-- A running state in which the bird has just fully cleared a pipe, for
the scoring and high-score theorems. -/
def scoringState : GameState :=
  { bird := { x := 100, y := 300, velocity := 0 },
    pipes := [{ x := 30, topHeight := 100, bottomHeight := 300, passed := false }],
    gameStarted := true, gameOver := false, score := 0, highScore := 0,
    storedHigh := none }

/-- A running state holding one already-passed pipe that the next tick
pushes fully off screen (its x becomes -61 ≤ -PIPE_WIDTH). -/
def staleState : GameState :=
  { bird := { x := 100, y := 300, velocity := 0 },
    pipes := [{ x := -59, topHeight := 100, bottomHeight := 300, passed := true }],
    gameStarted := true, gameOver := false, score := 1, highScore := 1,
    storedHigh := some 1 }

/-- A running state whose single pipe has drifted left far enough that the
next tick appends a fresh pipe at the right edge. -/
def denseState : GameState :=
  { bird := { x := 100, y := 300, velocity := 0 },
    pipes := [{ x := 548, topHeight := 200, bottomHeight := 200, passed := false }],
    gameStarted := true, gameOver := false, score := 0, highScore := 0,
    storedHigh := none }

/-! Claim theorems. -/

/-- C1: on every Running tick, the physics update computes
`newY = y + velocity` and `newVelocity = velocity + gravity`; when
`newY ≤ 0` or `newY ≥ playfieldHeight - birdHeight` the state transitions
to Over and the bird is left exactly at its pre-tick value; otherwise the
new y and velocity are committed with x unchanged and the game stays
running. -/
theorem C1_tick_physics (gw gh r : ℚ) (s : GameState)
    (hs : s.gameStarted = true) (ho : s.gameOver = false) :
    ((s.bird.y + s.bird.velocity ≤ 0 ∨
        s.bird.y + s.bird.velocity ≥ gh - BIRD_HEIGHT) →
      (tick gw gh r s).bird = s.bird ∧ (tick gw gh r s).gameOver = true) ∧
    (¬(s.bird.y + s.bird.velocity ≤ 0 ∨
        s.bird.y + s.bird.velocity ≥ gh - BIRD_HEIGHT) →
      (tick gw gh r s).bird =
        { x := s.bird.x, y := s.bird.y + s.bird.velocity,
          velocity := s.bird.velocity + GRAVITY } ∧
      (tick gw gh r s).gameOver = false) := by
  have hb : birdStep gh s.bird =
      if s.bird.y + s.bird.velocity ≤ 0 ∨
          s.bird.y + s.bird.velocity ≥ gh - BIRD_HEIGHT then (s.bird, true)
      else ({ x := s.bird.x, y := s.bird.y + s.bird.velocity,
              velocity := s.bird.velocity + GRAVITY }, false) := rfl
  constructor <;> intro h
  · rw [if_pos h] at hb
    simp [tick, hs, ho, hb]
  · rw [if_neg h] at hb
    simp [tick, hs, ho, hb]

/-- Witness for C1 at the spec's own scenario: bird at `y = 0`,
`velocity = -1`; one tick goes out of bounds, sets Over and leaves the
bird unchanged. -/
theorem C1_tick_physics_witness :
    (tick 800 600 0 fallingState).bird = fallingState.bird ∧
    (tick 800 600 0 fallingState).gameOver = true :=
  (C1_tick_physics 800 600 0 fallingState rfl rfl).1
    (by norm_num [fallingState])

/-- C6: every pipe satisfies `topHeight + gapSize + bottomHeight =
playfieldHeight` at creation for every random draw, and both creation
sites (the initial spawn in `jump` and the generator spawn in the pipe
step) only ever create such a pipe — any pipe of the post-step sequence is
either a shifted pre-existing pipe or the freshly spawned one. -/
theorem C6_gap_invariant (gw gh r : ℚ) :
    (mkPipe gw gh r).topHeight + PIPE_GAP + (mkPipe gw gh r).bottomHeight
        = gh ∧
    (∀ s : GameState, s.gameStarted = false →
        (jump gw gh r s).pipes = [mkPipe gw gh r]) ∧
    (∀ ps : List Pipe, ∀ p ∈ pipeStep gw gh r ps,
        p ∈ ps.map movePipe ∨ p = mkPipe gw gh r) := by
  refine ⟨by simp [mkPipe], ?_, ?_⟩
  · intro s hs
    simp [jump, hs]
  · intro ps p hp
    unfold pipeStep at hp
    dsimp only at hp
    split at hp
    · simp only [List.mem_append, List.mem_filter, List.mem_singleton] at hp
      tauto
    · split at hp
      · simp only [List.mem_append, List.mem_filter, List.mem_singleton] at hp
        tauto
      · simp only [List.mem_filter] at hp
        tauto

/-- Witness for C6 at `gw = 800`, `gh = 600`, `r = 1/3`, the idle state. -/
theorem C6_gap_invariant_witness :
    (mkPipe 800 600 (1/3)).topHeight + PIPE_GAP +
        (mkPipe 800 600 (1/3)).bottomHeight = 600 ∧
    (jump 800 600 (1/3) idleState).pipes = [mkPipe 800 600 (1/3)] :=
  ⟨(C6_gap_invariant 800 600 (1/3)).1,
   (C6_gap_invariant 800 600 (1/3)).2.1 idleState rfl⟩

/-- C8: once Over is entered, ticks, jumps and the collision/scoring pass
are all no-ops until reset — bird, pipes and score stay exactly frozen. -/
theorem C8_over_frozen (gw gh r : ℚ) (s : GameState)
    (hs : s.gameStarted = true) (ho : s.gameOver = true) :
    tick gw gh r s = s ∧ jump gw gh r s = s ∧ checkCollisions gh s = s := by
  refine ⟨?_, ?_, ?_⟩ <;> simp [tick, jump, checkCollisions, hs, ho]

/-- Witness for C8 at a concrete game-over state. -/
theorem C8_over_frozen_witness :
    tick 800 600 0 overState = overState ∧
    jump 800 600 0 overState = overState ∧
    checkCollisions 600 overState = overState :=
  C8_over_frozen 800 600 0 overState rfl rfl

/-- C9 counterexample: the stored string "-5" is numeric for `parseInt`
(not NaN), so it is loaded verbatim and the resulting high score is the
negative integer -5, contradicting the claimed non-negativity for every
stored string. -/
theorem C9_load_cex :
    loadHighScore (some "-5") = -5 ∧ ¬(0 ≤ loadHighScore (some "-5")) := by
  decide

/-- C9 amended: loading never faults and always yields an integer; a
missing key or a non-numeric (NaN-parsing) string degrades to the default
0, and the empty string also loads as 0; a numeric string loads as its
parsed value, which need not be non-negative. -/
theorem C9_load_amended :
    loadHighScore none = 0 ∧
    loadHighScore (some "") = 0 ∧
    (∀ t : String, jsParseInt t = none → loadHighScore (some t) = 0) ∧
    (∀ t : String, ∀ n : Int, t ≠ "" → jsParseInt t = some n →
        loadHighScore (some t) = n) := by
  refine ⟨rfl, by decide, ?_, ?_⟩
  · intro t ht
    by_cases h : t = ""
    · subst h; decide
    · simp [loadHighScore, h, ht]
  · intro t n hne hp
    simp [loadHighScore, hne, hp]

/-- Witness for C9's amended claim at the non-numeric string "abc". -/
theorem C9_load_amended_witness :
    jsParseInt "abc" = none ∧ loadHighScore (some "abc") = 0 :=
  ⟨by decide, C9_load_amended.2.2.1 "abc" (by decide)⟩

/-- The scan loop reports a collision exactly when some pipe in the list
collides with the bird. -/
theorem scanPipes_fst_iff (gh : ℚ) (b : Bird) (ps : List Pipe) :
    (scanPipes gh b ps).1 = true ↔ ∃ p ∈ ps, birdCollides gh b p = true := by
  induction ps with
  | nil => simp [scanPipes]
  | cons p rest ih =>
      by_cases hc : birdCollides gh b p = true
      · simp [scanPipes, hc]
      · simp only [scanPipes, hc, if_false, Bool.false_eq_true,
          List.exists_mem_cons_iff]
        simpa [hc] using ih

/-- In a Running state, the collision/scoring pass sets `gameOver` exactly
to the scan loop's collision flag. -/
theorem checkCollisions_gameOver (gh : ℚ) (s : GameState)
    (hs : s.gameStarted = true) (ho : s.gameOver = false) :
    (checkCollisions gh s).gameOver = (scanPipes gh s.bird s.pipes).1 := by
  unfold checkCollisions
  simp only [hs, ho, Bool.not_true, Bool.false_or, Bool.false_eq_true,
    if_false]
  split
  · next hcol => simp [hcol]
  · next hcol =>
      have hcb : (scanPipes gh s.bird s.pipes).1 = false := by
        simpa using hcol
      split
      · split <;> simp [ho, hcb]
      · simp [ho, hcb]

/-- In a Running state, a reported collision makes the pass set only
`gameOver`. -/
theorem checkCollisions_collided (gh : ℚ) (s : GameState)
    (hs : s.gameStarted = true) (ho : s.gameOver = false)
    (hcol : (scanPipes gh s.bird s.pipes).1 = true) :
    checkCollisions gh s = { s with gameOver := true } := by
  unfold checkCollisions
  simp [hs, ho, hcol]

/-- C2: during a Running collision/scoring pass, Over is signalled exactly
when some pipe in the sequence satisfies the horizontal-overlap-and-
outside-the-gap predicate, and when one does, the resulting state is the
old state with only `gameOver` set — no pipe is newly marked passed, and
score, high score and storage are unchanged. -/
theorem C2_collision_detect (gh : ℚ) (s : GameState)
    (hs : s.gameStarted = true) (ho : s.gameOver = false) :
    ((checkCollisions gh s).gameOver = true ↔
        ∃ p ∈ s.pipes, birdCollides gh s.bird p = true) ∧
    ((∃ p ∈ s.pipes, birdCollides gh s.bird p = true) →
        checkCollisions gh s = { s with gameOver := true }) := by
  have hgo := checkCollisions_gameOver gh s hs ho
  have hiff := scanPipes_fst_iff gh s.bird s.pipes
  constructor
  · rw [hgo]; exact hiff
  · intro h
    exact checkCollisions_collided gh s hs ho (hiff.mpr h)

/-- Witness for C2 at a state whose bird overlaps its pipe's column above
the gap: the pass sets exactly `gameOver`. -/
theorem C2_collision_detect_witness :
    checkCollisions 600 collidingState =
      { collidingState with gameOver := true } :=
  (C2_collision_detect 600 collidingState rfl rfl).2
    ⟨{ x := 80, topHeight := 100, bottomHeight := 300, passed := false },
     by simp [collidingState],
     by simp [birdCollides, collidingState, BIRD_WIDTH, BIRD_HEIGHT,
          PIPE_WIDTH]; norm_num⟩

/-- C3 counterexample: at `playfieldWidth = 800`, `playfieldHeight = 600`
and random draw `r = 9/10`, the jump from Idle spawns its single pipe with
`topHeight = 320`, which lies outside the claimed interval
`[50, playfieldHeight - gapSize - 100] = [50, 300]`. -/
theorem C3_topHeight_cex :
    (jump 800 600 (9/10) idleState).pipes = [mkPipe 800 600 (9/10)] ∧
    (mkPipe 800 600 (9/10)).topHeight = 320 ∧
    ¬((mkPipe 800 600 (9/10)).topHeight ≤ 600 - PIPE_GAP - 100) := by
  refine ⟨by simp [jump, idleState], ?_, ?_⟩ <;>
    norm_num [mkPipe, PIPE_GAP]

/-- C3 amended: a jump in Idle spawns exactly one pipe at
`x = playfieldWidth`; its `topHeight` is `50 + r·(playfieldHeight -
gapSize - 100)` for the draw `r ∈ [0,1)`, hence uniform over
`[50, playfieldHeight - gapSize - 50)`; `bottomHeight` complements it to
`playfieldHeight - topHeight - gapSize`, `passed` starts false, and the
state becomes Running. -/
theorem C3_spawn_amended (gw gh r : ℚ) (s : GameState)
    (hs : s.gameStarted = false) (h0 : 0 ≤ r) (h1 : r < 1)
    (hgh : 0 < gh - PIPE_GAP - 100) :
    jump gw gh r s = { s with gameStarted := true,
                              pipes := [mkPipe gw gh r] } ∧
    (mkPipe gw gh r).x = gw ∧
    (mkPipe gw gh r).topHeight = r * (gh - PIPE_GAP - 100) + 50 ∧
    50 ≤ (mkPipe gw gh r).topHeight ∧
    (mkPipe gw gh r).topHeight < gh - PIPE_GAP - 50 ∧
    (mkPipe gw gh r).bottomHeight =
      gh - (mkPipe gw gh r).topHeight - PIPE_GAP ∧
    (mkPipe gw gh r).passed = false := by
  have htop : (mkPipe gw gh r).topHeight = r * (gh - PIPE_GAP - 100) + 50 :=
    rfl
  refine ⟨by simp [jump, hs], rfl, htop, ?_, ?_, rfl, rfl⟩
  · have hnn : 0 ≤ r * (gh - PIPE_GAP - 100) := mul_nonneg h0 (le_of_lt hgh)
    rw [htop]
    linarith
  · have hlt : r * (gh - PIPE_GAP - 100) < 1 * (gh - PIPE_GAP - 100) :=
      mul_lt_mul_of_pos_right h1 hgh
    rw [htop]
    linarith

/-- Witness for C3's amended claim at the spec's scenario dimensions and
the draw `r = 1/2`. -/
theorem C3_spawn_amended_witness :
    jump 800 600 (1/2) idleState =
      { idleState with gameStarted := true,
                       pipes := [mkPipe 800 600 (1/2)] } ∧
    (mkPipe 800 600 (1/2)).x = 800 ∧
    50 ≤ (mkPipe 800 600 (1/2)).topHeight ∧
    (mkPipe 800 600 (1/2)).topHeight < 600 - PIPE_GAP - 50 := by
  have h := C3_spawn_amended 800 600 (1/2) idleState rfl (by norm_num)
    (by norm_num) (by norm_num [PIPE_GAP])
  exact ⟨h.1, h.2.1, h.2.2.2.1, h.2.2.2.2.1⟩

/-- Counting passed pipes through a cons cell. -/
theorem countPassed_cons (p : Pipe) (l : List Pipe) :
    countPassed (p :: l) = (if p.passed then 1 else 0) + countPassed l := by
  by_cases hp : p.passed <;>
    simp [countPassed, List.filter_cons, hp, Nat.add_comm]

/-- The scan loop raises the number of passed flags in the list it returns
by exactly the newly-passed count it reports. -/
theorem scanPipes_countPassed (gh : ℚ) (b : Bird) (ps : List Pipe) :
    countPassed (scanPipes gh b ps).2.1 =
      countPassed ps + (scanPipes gh b ps).2.2 := by
  induction ps with
  | nil => simp [scanPipes, countPassed]
  | cons p rest ih =>
      by_cases hc : birdCollides gh b p = true
      · simp [scanPipes, hc]
      · have hcb : birdCollides gh b p = false := by simpa using hc
        cases hq : (!p.passed && decide (b.x > p.x + PIPE_WIDTH)) with
        | false =>
            simp only [scanPipes, hcb, hq]
            simp [countPassed_cons, ih]
            omega
        | true =>
            have hp : p.passed = false := by
              cases hpp : p.passed
              · rfl
              · rw [hpp] at hq
                simp at hq
            simp only [scanPipes, hcb, hq]
            simp [countPassed_cons, hp, ih]
            omega

/-- C4 counterexample: a Running state holding one already-passed pipe at
`x = -59` satisfies the claimed equality (score 1, one passed pipe); the
next tick removes that pipe (its x becomes -61 ≤ -PIPE_WIDTH) while the
run continues, leaving score 1 against zero passed pipes in the sequence —
the claimed per-tick invariant fails because Score is cumulative while
passed pipes are eventually destroyed. -/
theorem C4_score_cex :
    staleState.score = countPassed staleState.pipes ∧
    (tick 800 600 (1/2) staleState).gameOver = false ∧
    (tick 800 600 (1/2) staleState).score = 1 ∧
    countPassed (tick 800 600 (1/2) staleState).pipes = 0 ∧
    ¬((tick 800 600 (1/2) staleState).score =
        countPassed (tick 800 600 (1/2) staleState).pipes) := by
  norm_num [tick, staleState, birdStep, pipeStep, movePipe, countPassed,
    mkPipe, BIRD_HEIGHT, PIPE_WIDTH, PIPE_SPEED, PIPE_GAP, GRAVITY]

/-- C4 amended: on every Running collision/scoring pass with no collision,
Score increases by exactly the number of pipes newly marked passed, which
also equals the increase in the number of passed flags in the pipe
sequence.  Score therefore counts all pipes ever passed in the run; it
can exceed the count of passed pipes currently in the sequence once a
passed pipe is removed off-screen. -/
theorem C4_scoring_amended (gh : ℚ) (s : GameState)
    (hs : s.gameStarted = true) (ho : s.gameOver = false)
    (hnc : (scanPipes gh s.bird s.pipes).1 = false) :
    (checkCollisions gh s).score =
      s.score + (scanPipes gh s.bird s.pipes).2.2 ∧
    countPassed (checkCollisions gh s).pipes =
      countPassed s.pipes + (scanPipes gh s.bird s.pipes).2.2 := by
  unfold checkCollisions
  simp only [hs, ho, Bool.not_true, Bool.false_or, Bool.false_eq_true,
    if_false, hnc]
  split
  · split <;> simp [scanPipes_countPassed]
  · next hn =>
      have h0 : (scanPipes gh s.bird s.pipes).2.2 = 0 := by omega
      simp [h0]

/-- Witness for C4's amended claim at a state whose bird has just cleared
its single pipe. -/
theorem C4_scoring_amended_witness :
    (checkCollisions 600 scoringState).score =
      scoringState.score +
        (scanPipes 600 scoringState.bird scoringState.pipes).2.2 ∧
    countPassed (checkCollisions 600 scoringState).pipes =
      countPassed scoringState.pipes +
        (scanPipes 600 scoringState.bird scoringState.pipes).2.2 :=
  C4_scoring_amended 600 scoringState rfl rfl
    (by norm_num [scanPipes, birdCollides, scoringState, BIRD_WIDTH,
      BIRD_HEIGHT, PIPE_WIDTH])

/-- C5 counterexample: from a Running state with one pipe at `x = 548`
(less than `playfieldWidth - 250`), a tick shifts it to 546 and appends a
fresh pipe at `x = 800`; the resulting sequence has the x values
`[546, 800]`, which is not ordered by descending x — the sequence is
ascending, the newest (rightmost) pipe last. -/
theorem C5_order_cex :
    (tick 800 600 (1/2) denseState).pipes =
      [{ x := 546, topHeight := 200, bottomHeight := 200, passed := false },
       { x := 800, topHeight := 200, bottomHeight := 200, passed := false }] ∧
    (tick 800 600 (1/2) denseState).gameOver = false ∧
    ¬((tick 800 600 (1/2) denseState).pipes.Pairwise
        (fun a b => a.x ≥ b.x)) := by
  have hp : (tick 800 600 (1/2) denseState).pipes =
      [{ x := 546, topHeight := 200, bottomHeight := 200, passed := false },
       { x := 800, topHeight := 200, bottomHeight := 200, passed := false }] := by
    norm_num [tick, denseState, birdStep, pipeStep, movePipe, mkPipe,
      BIRD_HEIGHT, PIPE_WIDTH, PIPE_SPEED, PIPE_GAP, GRAVITY]
  refine ⟨hp, ?_, ?_⟩
  · norm_num [tick, denseState, birdStep, BIRD_HEIGHT, GRAVITY]
  · rw [hp]
    simp only [List.pairwise_cons, List.mem_singleton, List.Pairwise]
    intro h
    have := h.1 _ rfl
    norm_num at this

/-- C5 amended: the pipe sequence is ordered by ascending x (insertion
order = spatial order, newest and rightmost pipe last); provided every
pipe starts at or left of the right edge, one pipe step preserves strict
ascending order and that bound, the surviving shifted pipes are exactly
those whose shifted x is greater than `-pipeWidth` (in order), and at most
one fresh pipe is appended after them. -/
theorem C5_pipes_amended (gw gh r : ℚ) (ps : List Pipe)
    (hchain : ps.Pairwise (fun a b => a.x < b.x))
    (hle : ∀ p ∈ ps, p.x ≤ gw) :
    (pipeStep gw gh r ps).Pairwise (fun a b => a.x < b.x) ∧
    (∀ p ∈ pipeStep gw gh r ps, p.x ≤ gw) ∧
    (∃ tail, pipeStep gw gh r ps =
        (ps.map movePipe).filter (fun p => decide (p.x > -PIPE_WIDTH)) ++
          tail ∧
        (tail = [] ∨ tail = [mkPipe gw gh r])) := by
  have hmap : (ps.map movePipe).Pairwise (fun a b => a.x < b.x) := by
    rw [List.pairwise_map]
    exact hchain.imp fun h => by
      simpa [movePipe] using sub_lt_sub_right h PIPE_SPEED
  have hkc := hmap.filter (fun p => decide (p.x > -PIPE_WIDTH))
  have hkle : ∀ p ∈ (ps.map movePipe).filter
      (fun p => decide (p.x > -PIPE_WIDTH)), p.x ≤ gw - PIPE_SPEED := by
    intro p hpk
    rcases List.mem_filter.mp hpk with ⟨hpm, _⟩
    rcases List.mem_map.mp hpm with ⟨q, hq, rfl⟩
    have := hle q hq
    simp only [movePipe]
    linarith
  have hspeed : (0:ℚ) < PIPE_SPEED := by norm_num [PIPE_SPEED]
  have hstep : pipeStep gw gh r ps =
      match ((ps.map movePipe).filter
          (fun p => decide (p.x > -PIPE_WIDTH))).getLast? with
      | none => (ps.map movePipe).filter
            (fun p => decide (p.x > -PIPE_WIDTH)) ++ [mkPipe gw gh r]
      | some last =>
          if last.x < gw - 250 then
            (ps.map movePipe).filter
                (fun p => decide (p.x > -PIPE_WIDTH)) ++ [mkPipe gw gh r]
          else (ps.map movePipe).filter
                (fun p => decide (p.x > -PIPE_WIDTH)) := rfl
  have happ : ((ps.map movePipe).filter
        (fun p => decide (p.x > -PIPE_WIDTH)) ++
          [mkPipe gw gh r]).Pairwise (fun a b => a.x < b.x) ∧
      (∀ p ∈ (ps.map movePipe).filter
          (fun p => decide (p.x > -PIPE_WIDTH)) ++ [mkPipe gw gh r],
        p.x ≤ gw) := by
    constructor
    · rw [List.pairwise_append]
      refine ⟨hkc, List.pairwise_singleton _ _, ?_⟩
      intro a ha b hb
      rw [List.mem_singleton] at hb
      subst hb
      have := hkle a ha
      show a.x < gw
      linarith
    · intro p hp
      rcases List.mem_append.mp hp with h | h
      · have := hkle p h
        linarith
      · rw [List.mem_singleton] at h
        subst h
        exact le_refl gw
  rcases hlast : ((ps.map movePipe).filter
      (fun p => decide (p.x > -PIPE_WIDTH))).getLast? with _ | last
  · rw [hlast] at hstep
    exact ⟨hstep ▸ happ.1, hstep ▸ happ.2,
      ⟨[mkPipe gw gh r], hstep, Or.inr rfl⟩⟩
  · rw [hlast] at hstep
    dsimp only at hstep
    by_cases hsp : last.x < gw - 250
    · rw [if_pos hsp] at hstep
      exact ⟨hstep ▸ happ.1, hstep ▸ happ.2,
        ⟨[mkPipe gw gh r], hstep, Or.inr rfl⟩⟩
    · rw [if_neg hsp] at hstep
      refine ⟨hstep ▸ hkc, ?_, ⟨[], by simpa using hstep, Or.inl rfl⟩⟩
      intro p hp
      rw [hstep] at hp
      have := hkle p hp
      linarith

/-- Witness for C5's amended claim at the one-pipe state that triggers a
fresh spawn. -/
theorem C5_pipes_amended_witness :
    (pipeStep 800 600 (1/2) denseState.pipes).Pairwise
        (fun a b => a.x < b.x) ∧
    (∀ p ∈ pipeStep 800 600 (1/2) denseState.pipes, p.x ≤ 800) ∧
    (∃ tail, pipeStep 800 600 (1/2) denseState.pipes =
        (denseState.pipes.map movePipe).filter
            (fun p => decide (p.x > -PIPE_WIDTH)) ++ tail ∧
        (tail = [] ∨ tail = [mkPipe 800 600 (1/2)])) :=
  C5_pipes_amended 800 600 (1/2) denseState.pipes
    (by simp [denseState])
    (by intro p hp
        simp only [denseState, List.mem_singleton] at hp
        subst hp
        norm_num)

/-- Every branch of the collision/scoring pass: the state is returned
unchanged (guard or nothing newly passed), only `gameOver` is set
(collision), or the newly-passed count is added to the score, with the
high score and storage updated exactly when the new score exceeds the old
high score. -/
theorem checkCollisions_cases (gh : ℚ) (s : GameState) :
    checkCollisions gh s = s ∨
    checkCollisions gh s = { s with gameOver := true } ∨
    (0 < (scanPipes gh s.bird s.pipes).2.2 ∧
     ((((s.score + (scanPipes gh s.bird s.pipes).2.2 : Nat) : Int) >
          s.highScore ∧
       checkCollisions gh s =
        { s with pipes := (scanPipes gh s.bird s.pipes).2.1,
                 score := s.score + (scanPipes gh s.bird s.pipes).2.2,
                 highScore :=
                   ((s.score + (scanPipes gh s.bird s.pipes).2.2 : Nat) :
                     Int),
                 storedHigh :=
                   some (((s.score +
                     (scanPipes gh s.bird s.pipes).2.2 : Nat) : Int)) }) ∨
      (¬(((s.score + (scanPipes gh s.bird s.pipes).2.2 : Nat) : Int) >
          s.highScore) ∧
       checkCollisions gh s =
        { s with pipes := (scanPipes gh s.bird s.pipes).2.1,
                 score := s.score +
                   (scanPipes gh s.bird s.pipes).2.2 }))) := by
  unfold checkCollisions
  split
  · exact Or.inl rfl
  · dsimp only
    split
    · exact Or.inr (Or.inl rfl)
    · split
      · next hn =>
          split
          · next hgt => exact Or.inr (Or.inr ⟨hn, Or.inl ⟨hgt, rfl⟩⟩)
          · next hngt => exact Or.inr (Or.inr ⟨hn, Or.inr ⟨hngt, rfl⟩⟩)
      · exact Or.inl rfl

/-- C7: the high score never decreases under any of tick, jump, reset or
the collision/scoring pass, and whenever the score resulting from the
scoring pass exceeds the current high score (starting from a state whose
score has not already silently passed it), the high score is set to that
score and simultaneously written through to storage. -/
theorem C7_highscore (gw gh r : ℚ) (s : GameState) :
    (s.highScore ≤ (tick gw gh r s).highScore ∧
     s.highScore ≤ (jump gw gh r s).highScore ∧
     s.highScore ≤ (resetGame gh s).highScore ∧
     s.highScore ≤ (checkCollisions gh s).highScore) ∧
    ((s.score : Int) ≤ s.highScore →
      ((checkCollisions gh s).score : Int) > s.highScore →
      (checkCollisions gh s).highScore =
        ((checkCollisions gh s).score : Int) ∧
      (checkCollisions gh s).storedHigh =
        some (((checkCollisions gh s).score : Int))) := by
  have hcc := checkCollisions_cases gh s
  constructor
  · refine ⟨?_, ?_, ?_, ?_⟩
    · unfold tick
      split
      · exact le_refl _
      · exact le_refl _
    · unfold jump
      split
      · exact le_refl _
      · split
        · exact le_refl _
        · exact le_refl _
    · show s.highScore ≤ s.highScore
      exact le_refl _
    · rcases hcc with h | h | ⟨hn, ⟨hgt, h⟩ | ⟨hngt, h⟩⟩ <;> rw [h]
      exact le_of_lt hgt
  · intro hsc hgt
    rcases hcc with h | h | ⟨hn, ⟨hgt2, h⟩ | ⟨hngt, h⟩⟩
    · rw [h] at hgt ⊢
      exact absurd hgt (not_lt.mpr hsc)
    · rw [h] at hgt ⊢
      exact absurd hgt (not_lt.mpr hsc)
    · rw [h]
      exact ⟨rfl, rfl⟩
    · rw [h] at hgt ⊢
      exact absurd hgt hngt

/-- Witness for C7 at the cleared-pipe state: the pass raises the score to
1, beating the high score 0, so the high score and the storage cell both
become 1. -/
theorem C7_highscore_witness :
    (checkCollisions 600 scoringState).highScore =
      ((checkCollisions 600 scoringState).score : Int) ∧
    (checkCollisions 600 scoringState).storedHigh =
      some (((checkCollisions 600 scoringState).score : Int)) :=
  (C7_highscore 800 600 0 scoringState).2 (by norm_num [scoringState])
    (by norm_num [checkCollisions, scoringState, scanPipes, birdCollides,
      BIRD_WIDTH, BIRD_HEIGHT, PIPE_WIDTH])

/-- The pipe-scan loops of the two source variants agree on every input. -/
theorem scanPipes_FG_eq (gh : ℚ) (b : Bird) (ps : List Pipe) :
    FG.scanPipes gh b ps = scanPipes gh b ps := by
  induction ps with
  | nil => rfl
  | cons p rest ih =>
      simp [FG.scanPipes, scanPipes, ih, FG.birdCollides, birdCollides,
        FG.BIRD_WIDTH, BIRD_WIDTH, FG.BIRD_HEIGHT, BIRD_HEIGHT,
        FG.PIPE_WIDTH, PIPE_WIDTH]

/-- C10: the `Page` component of page.js and the `FlappyGame` component of
part_001 implement the same core logic — on equal inputs and equal random
draws their jump, reset, tick, collision/scoring and high-score-load
functions produce equal results. -/
theorem C10_variants_equal (gw gh r : ℚ) (s : GameState)
    (stored : Option String) :
    FG.jump gw gh r s = jump gw gh r s ∧
    FG.resetGame gh s = resetGame gh s ∧
    FG.tick gw gh r s = tick gw gh r s ∧
    FG.checkCollisions gh s = checkCollisions gh s ∧
    FG.loadHighScore stored = loadHighScore stored := by
  refine ⟨rfl, rfl, rfl, ?_, rfl⟩
  simp [FG.checkCollisions, checkCollisions, scanPipes_FG_eq]

end Flappy
